import Mathlib

/-!
Shallow embedding of the client application state logic in
`src/client/src/App.tsx` (the single source file of the repository).

The component `App` owns the following pieces of React state:
`companies`, `bookmarkedIds`, `locations`, `loading`, `cursor`,
`hasMore`, `filters` and `showLoginDialog`.  We model the state as a
record, each event handler / async operation as a pure function on
that record, and a network interaction as a function that additionally
receives the server's answer (`some response` for a resolved request,
`none` for a request that failed at the network or JSON-parsing step —
the `catch` path of the source).  Sequencing is the cooperative,
one-fetch-at-a-time semantics of the spec's pagination state machine
(`IDLE → LOADING → IDLE` per fetch).
-/

/-- A company record.  The front-end only ever inspects `id` (for React
keys and bookmark membership); all other displayed fields are opaque,
summarised here by `name`. -/
structure Company where
  id : String
  name : String
deriving DecidableEq, Repr

/-- `SearchFilters` from `src/client/src/types/SearchFIlters`:
`{ search: string, location: string }`. -/
structure SearchFilters where
  search : String
  location : String
deriving DecidableEq, Repr

/-- Body of a successful `GET /search` response:
`{ companiesData, nextCursor, hasMore }` (App.tsx lines 80–84). -/
structure SearchResponse where
  companiesData : List Company
  nextCursor : Option String
  hasMore : Bool
deriving DecidableEq, Repr

/-- The session user produced by the `useAuth` hook; the logic in
App.tsx only tests its presence. -/
structure User where
  name : String
deriving DecidableEq, Repr

/-- The React state owned by `App` (App.tsx lines 18–30). -/
structure AppState where
  companies : List Company
  bookmarkedIds : Finset String
  locations : List String
  loading : Bool
  cursor : Option String
  hasMore : Bool
  filters : SearchFilters
  showLoginDialog : Bool

/-- The `useState` initial values (App.tsx lines 18–30): empty list,
empty bookmark set, no locations, not loading, null cursor,
`hasMore = true`, empty filters, dialog closed. -/
def initialState : AppState :=
  { companies := []
    bookmarkedIds := ∅
    locations := []
    loading := false
    cursor := none
    hasMore := true
    filters := { search := "", location := "" }
    showLoginDialog := false }

/-- `handleBookmarkToggle(id, state)` (App.tsx lines 47–58): with no
user session it opens the login dialog and returns; with a session it
copies the set and adds or deletes `id` according to `state`. -/
def handleBookmarkToggle (user : Option User) (id : String) (state : Bool)
    (s : AppState) : AppState :=
  match user with
  | none => { s with showLoginDialog := true }
  | some _ =>
    { s with
      bookmarkedIds :=
        if state then insert id s.bookmarkedIds else s.bookmarkedIds.erase id }

/-- `fetchBookmarks` (App.tsx lines 35–45): a no-op without a user;
otherwise replaces the bookmark set by
`new Set(res.data.bookmarkedCompanyIds)` on success and leaves state
untouched on failure (the `catch` only logs). -/
def fetchBookmarks (user : Option User) (result : Option (List String))
    (s : AppState) : AppState :=
  match user with
  | none => s
  | some _ =>
    match result with
    | some ids => { s with bookmarkedIds := ids.toFinset }
    | none => s

/-- `fetchLocations` (App.tsx lines 94–102): replaces `locations` on
success, leaves state untouched on failure. -/
def fetchLocations (result : Option (List String)) (s : AppState) : AppState :=
  match result with
  | some locs => { s with locations := locs }
  | none => s

/-- `String.prototype.trim`: strip leading and trailing whitespace. -/
def jsTrim (s : String) : String :=
  ⟨((s.data.dropWhile Char.isWhitespace).reverse.dropWhile
      Char.isWhitespace).reverse⟩

/-- The `URLSearchParams` built by `fetchCompanies` (App.tsx lines
70–75).  JavaScript object-spread with `&&` includes each optional
entry only when the guard is truthy; for strings, truthy means
non-empty, so a null OR empty `currentCursor` contributes no `cursor`
key, and `search` / `location` are included (trimmed) exactly when
their trim is non-empty. -/
def fetchParams (currentCursor : Option String)
    (searchTerm locationFilter : String) : List (String × String) :=
  [("limit", "20")]
    ++ (match currentCursor with
        | some c => if c = "" then [] else [("cursor", c)]
        | none => [])
    ++ (if jsTrim searchTerm = "" then [] else [("search", jsTrim searchTerm)])
    ++ (if jsTrim locationFilter = "" then []
        else [("location", jsTrim locationFilter)])

/-- The argument tuple of one `fetchCompanies` call (App.tsx lines
61–66). -/
structure FetchCall where
  resetList : Bool
  currentCursor : Option String
  searchTerm : String
  locationFilter : String
deriving DecidableEq, Repr

/-- The state-updating tail of `fetchCompanies` (App.tsx lines 80–89):
on a resolved response, replace or append `companies` according to
`resetList` and copy `nextCursor` / `hasMore` from the response; on a
failed request the `catch` only logs, so nothing but `loading`
changes; the `finally` block clears `loading` on both paths.  The
function is total: the error is swallowed, never re-raised. -/
def fetchCompaniesFinish (resetList : Bool) (result : Option SearchResponse)
    (s : AppState) : AppState :=
  match result with
  | some data =>
    { s with
      companies :=
        if resetList then data.companiesData else s.companies ++ data.companiesData
      cursor := data.nextCursor
      hasMore := data.hasMore
      loading := false }
  | none => { s with loading := false }

/-- One complete run of `fetchCompanies` (App.tsx lines 60–92): the
first component is the state right after the leading
`setLoading(true)`, the second the state after the response (or error)
has been handled and `finally` has run `setLoading(false)`. -/
def fetchCompaniesRun (call : FetchCall) (result : Option SearchResponse)
    (s : AppState) : AppState × AppState :=
  let mid := { s with loading := true }
  (mid, fetchCompaniesFinish call.resetList result mid)

/-- The final state of one complete `fetchCompanies` run. -/
def fetchCompanies (call : FetchCall) (result : Option SearchResponse)
    (s : AppState) : AppState :=
  (fetchCompaniesRun call result s).2

/-- The effect at App.tsx lines 104–108, run on every change of the
debounced search value or of `filters.location`: synchronously
`setCursor(null)`, `setHasMore(true)`, then issue
`fetchCompanies(true, null, debouncedSearch, filters.location)`.
Returns the state after the synchronous resets, the issued call, and
the state after that call completes. -/
def filterChangeEffect (debouncedSearch location : String)
    (result : Option SearchResponse) (s : AppState) :
    AppState × FetchCall × AppState :=
  let sReset := { s with cursor := none, hasMore := true }
  let call : FetchCall :=
    { resetList := true, currentCursor := none,
      searchTerm := debouncedSearch, locationFilter := location }
  (sReset, call, fetchCompanies call result sReset)

/-- The `IntersectionObserver` callback installed by `lastCompanyRef`
(App.tsx lines 129–133), with the values of `hasMore`, `cursor`,
`debouncedSearch` and `filters.location` captured at observer
creation: it issues `fetchCompanies(false, cursor, debouncedSearch,
filters.location)` exactly when the entry intersects and `hasMore`
holds. -/
def observerCallback (hasMore : Bool) (cursor : Option String)
    (debouncedSearch location : String) (isIntersecting : Bool) :
    Option FetchCall :=
  if isIntersecting && hasMore then
    some { resetList := false, currentCursor := cursor,
           searchTerm := debouncedSearch, locationFilter := location }
  else none

/-- One scroll event on the last rendered card in the sequential
(one-fetch-at-a-time) model: if the observer callback fires a fetch it
is run to completion, otherwise the state is unchanged. -/
def scrollStep (debouncedSearch : String) (isIntersecting : Bool)
    (result : Option SearchResponse) (s : AppState) : AppState :=
  match observerCallback s.hasMore s.cursor debouncedSearch
      s.filters.location isIntersecting with
  | some call => fetchCompanies call result s
  | none => s

/-- A sequence of scroll events under a fixed debounced search value
(and the location stored in the state), each paired with the server's
answer to the fetch it may trigger. -/
def scrollEvents (debouncedSearch : String)
    (evs : List (Bool × Option SearchResponse)) (s : AppState) : AppState :=
  evs.foldl (fun st ev => scrollStep debouncedSearch ev.1 ev.2 st) s

/-! ## Concrete sample data used by witnesses -/

/-- A state holding one already-rendered company. -/
def demoState : AppState :=
  { initialState with companies := [{ id := "1", name := "Acme" }] }

/-- A sample successful `GET /search` response. -/
def demoResp : SearchResponse :=
  { companiesData := [{ id := "2", name := "Globex" }]
    nextCursor := some "c2"
    hasMore := true }

/-- A state in which the server has already signalled exhaustion. -/
def exhaustedState : AppState := { initialState with hasMore := false }

/-! ## Helper lemmas -/

/-- With `hasMore = false` the captured-state observer callback issues
no fetch, so a scroll event leaves the state unchanged. -/
theorem scrollStep_of_not_hasMore (debouncedSearch : String)
    (isIntersecting : Bool) (result : Option SearchResponse) (s : AppState)
    (h : s.hasMore = false) :
    scrollStep debouncedSearch isIntersecting result s = s := by
  simp [scrollStep, observerCallback, h]

/-- ... hence any sequence of scroll events leaves it unchanged. -/
theorem scrollEvents_of_not_hasMore (debouncedSearch : String)
    (evs : List (Bool × Option SearchResponse)) (s : AppState)
    (h : s.hasMore = false) :
    scrollEvents debouncedSearch evs s = s := by
  induction evs generalizing s with
  | nil => rfl
  | cons e rest ih =>
    show scrollEvents debouncedSearch rest
        (scrollStep debouncedSearch e.1 e.2 s) = s
    rw [scrollStep_of_not_hasMore debouncedSearch e.1 e.2 s h]
    exact ih s h

/-! ## Claim theorems -/

/-- C1: on every change of the (debounced) search filter or the
location filter, the effect first resets pagination state
(`cursor = null`, `hasMore = true`) and then issues a reset fetch
(`resetList = true`, `cursor = null`), so when that fetch completes
the visible list is exactly the response's `companiesData` and the
cursor is the response's `nextCursor`. -/
theorem filter_change_resets_pagination_and_replaces_list
    (debouncedSearch location : String) (resp : SearchResponse)
    (s : AppState) :
    (filterChangeEffect debouncedSearch location (some resp) s).1.cursor
        = none ∧
    (filterChangeEffect debouncedSearch location (some resp) s).1.hasMore
        = true ∧
    (filterChangeEffect debouncedSearch location (some resp) s).2.1.resetList
        = true ∧
    (filterChangeEffect debouncedSearch location
        (some resp) s).2.1.currentCursor = none ∧
    (filterChangeEffect debouncedSearch location (some resp) s).2.2.companies
        = resp.companiesData ∧
    (filterChangeEffect debouncedSearch location (some resp) s).2.2.cursor
        = resp.nextCursor := by
  simp [filterChangeEffect, fetchCompanies, fetchCompaniesRun,
    fetchCompaniesFinish]

/-- C2: a successful `fetchCompanies` run replaces the list with the
response's `companiesData` when `resetList` is true, appends it
otherwise, and in both cases copies `nextCursor` and `hasMore` from
the response. -/
theorem fetchCompanies_success_updates_list_cursor_hasMore
    (call : FetchCall) (resp : SearchResponse) (s : AppState) :
    (fetchCompanies call (some resp) s).companies =
      (if call.resetList then resp.companiesData
       else s.companies ++ resp.companiesData) ∧
    (fetchCompanies call (some resp) s).cursor = resp.nextCursor ∧
    (fetchCompanies call (some resp) s).hasMore = resp.hasMore := by
  simp [fetchCompanies, fetchCompaniesRun, fetchCompaniesFinish]

/-- C3: with `hasMore = false` captured, the intersection-observer
callback never issues a fetch, whatever the intersection entry says. -/
theorem observer_silent_when_hasMore_false (cursor : Option String)
    (debouncedSearch location : String) (isIntersecting : Bool) :
    observerCallback false cursor debouncedSearch location isIntersecting
      = none := by
  simp [observerCallback]

/-- C5: toggling a bookmark with no user session leaves the
bookmark set untouched and opens the login dialog. -/
theorem bookmark_toggle_logged_out_opens_login (id : String)
    (state : Bool) (s : AppState) :
    (handleBookmarkToggle none id state s).bookmarkedIds
        = s.bookmarkedIds ∧
    (handleBookmarkToggle none id state s).showLoginDialog = true := by
  simp [handleBookmarkToggle]

/-- C7: a failed `fetchCompanies` leaves `companies`, `cursor` and
`hasMore` exactly as they were; a failed `fetchLocations` leaves the
whole state unchanged, as does a failed `fetchBookmarks` for any user.
All three are total functions into `AppState`: the error is swallowed,
never re-raised. -/
theorem fetch_failures_leave_state_intact (call : FetchCall)
    (user : Option User) (s : AppState) :
    (fetchCompanies call none s).companies = s.companies ∧
    (fetchCompanies call none s).cursor = s.cursor ∧
    (fetchCompanies call none s).hasMore = s.hasMore ∧
    fetchLocations none s = s ∧
    fetchBookmarks user none s = s := by
  refine ⟨rfl, rfl, rfl, rfl, ?_⟩
  cases user <;> rfl

/-- C8: every `fetchCompanies` run sets `loading = true` at its start
and `loading = false` at its end, on the success path and on the error
path alike. -/
theorem fetchCompanies_loading_lifecycle (call : FetchCall)
    (result : Option SearchResponse) (s : AppState) :
    (fetchCompaniesRun call result s).1.loading = true ∧
    (fetchCompaniesRun call result s).2.loading = false := by
  cases result <;> simp [fetchCompaniesRun, fetchCompaniesFinish]

/-- C4: under fixed filters, a scroll event with a successful,
well-behaved server response (fresh items, no internal duplicates)
strictly appends: the items already shown stay, in order, a prefix of
the list, and the list stays duplicate-free. -/
theorem scroll_fetch_strictly_appends (s : AppState)
    (debouncedSearch : String) (isIntersecting : Bool)
    (resp : SearchResponse)
    (hnd : s.companies.Nodup)
    (hrespNd : resp.companiesData.Nodup)
    (hdisj : ∀ c ∈ resp.companiesData, c ∉ s.companies) :
    s.companies <+:
      (scrollStep debouncedSearch isIntersecting (some resp) s).companies ∧
    (scrollStep debouncedSearch isIntersecting (some resp) s).companies.Nodup
    := by
  have key :
      (scrollStep debouncedSearch isIntersecting (some resp) s).companies
          = s.companies ∨
      (scrollStep debouncedSearch isIntersecting (some resp) s).companies
          = s.companies ++ resp.companiesData := by
    by_cases hI : (isIntersecting && s.hasMore) = true
    · right
      simp [scrollStep, observerCallback, hI, fetchCompanies,
        fetchCompaniesRun, fetchCompaniesFinish]
    · left
      simp [scrollStep, observerCallback, hI]
  rcases key with h | h <;> rw [h]
  · exact ⟨List.prefix_rfl, hnd⟩
  · exact ⟨List.prefix_append _ _,
      hnd.append hrespNd (fun a ha hb => hdisj a hb ha)⟩

/-- Witness for C4 at a concrete state and response. -/
theorem scroll_fetch_strictly_appends_witness :
    demoState.companies <+:
      (scrollStep "" true (some demoResp) demoState).companies ∧
    (scrollStep "" true (some demoResp) demoState).companies.Nodup :=
  scroll_fetch_strictly_appends demoState "" true demoResp
    (by decide) (by decide) (by decide)

/-- C6: toggling a bookmark with a session present makes membership of
the toggled id equal to the requested state and leaves membership of
every other id unchanged. -/
theorem bookmark_toggle_logged_in_sets_exactly_id (u : User) (id : String)
    (state : Bool) (s : AppState) :
    ((id ∈ (handleBookmarkToggle (some u) id state s).bookmarkedIds) ↔
      state = true) ∧
    ∀ j : String, j ≠ id →
      ((j ∈ (handleBookmarkToggle (some u) id state s).bookmarkedIds) ↔
        j ∈ s.bookmarkedIds) := by
  cases state with
  | false =>
    refine ⟨by simp [handleBookmarkToggle], ?_⟩
    intro j hj
    simp [handleBookmarkToggle, Finset.mem_erase, hj]
  | true =>
    refine ⟨by simp [handleBookmarkToggle], ?_⟩
    intro j hj
    simp [handleBookmarkToggle, Finset.mem_insert, hj]

/-- Witness for C6: adding `"a"` from the initial state, checked at
the toggled id `"a"` and at the distinct id `"b"`. -/
theorem bookmark_toggle_logged_in_sets_exactly_id_witness :
    (("a" ∈ (handleBookmarkToggle (some { name := "u" }) "a" true
        initialState).bookmarkedIds) ↔ true = true) ∧
    (("b" ∈ (handleBookmarkToggle (some { name := "u" }) "a" true
        initialState).bookmarkedIds) ↔ "b" ∈ initialState.bookmarkedIds) :=
  ⟨(bookmark_toggle_logged_in_sets_exactly_id { name := "u" } "a" true
      initialState).1,
   (bookmark_toggle_logged_in_sets_exactly_id { name := "u" } "a" true
      initialState).2 "b" (by decide)⟩

/-- C9: once `hasMore` is false, no sequence of scroll events under
the same filters ever issues a fetch, so `hasMore` stays false; only
the filter-change effect sets it back to true. -/
theorem hasMore_false_absorbing_under_fixed_filters
    (debouncedSearch : String) (evs : List (Bool × Option SearchResponse))
    (s : AppState) (h : s.hasMore = false)
    (newSearch newLocation : String) (result : Option SearchResponse) :
    (scrollEvents debouncedSearch evs s).hasMore = false ∧
    (filterChangeEffect newSearch newLocation result
        (scrollEvents debouncedSearch evs s)).1.hasMore = true := by
  rw [scrollEvents_of_not_hasMore debouncedSearch evs s h]
  exact ⟨h, rfl⟩

/-- Witness for C9: an exhausted state hit by one intersecting scroll
event with a would-be response. -/
theorem hasMore_false_absorbing_witness :
    (scrollEvents "" [(true, some demoResp)] exhaustedState).hasMore
        = false ∧
    (filterChangeEffect "x" "y" none
        (scrollEvents "" [(true, some demoResp)] exhaustedState)).1.hasMore
        = true :=
  hasMore_false_absorbing_under_fixed_filters "" [(true, some demoResp)]
    exhaustedState (by decide) "x" "y" none

/-- C10 counterexample: the claim says the query contains a `cursor`
parameter iff the cursor argument is non-null, but at
`currentCursor = some ""` — non-null — JavaScript truthiness drops the
empty string and the built query is just `limit=20`, with no `cursor`
parameter. -/
theorem fetchParams_cursor_iff_nonnull_counterexample :
    (some "" : Option String) ≠ none ∧
    fetchParams (some "") "" "" = [("limit", "20")] :=
  ⟨by decide, by decide⟩

/-- C10 (amended): the query always contains `limit=20`; it contains
a `cursor` parameter iff the cursor argument is non-null AND
non-empty, in which case that cursor value is sent; and it contains a
`search` (resp. `location`) parameter iff that argument is non-empty
after trimming, in which case the trimmed value is sent. -/
theorem fetchParams_contents (currentCursor : Option String)
    (searchTerm locationFilter : String) :
    ("limit", "20") ∈ fetchParams currentCursor searchTerm locationFilter ∧
    ((∃ v, ("cursor", v) ∈
        fetchParams currentCursor searchTerm locationFilter) ↔
      ∃ c, currentCursor = some c ∧ c ≠ "") ∧
    (∀ v, ("cursor", v) ∈
        fetchParams currentCursor searchTerm locationFilter →
      currentCursor = some v) ∧
    ((∃ v, ("search", v) ∈
        fetchParams currentCursor searchTerm locationFilter) ↔
      jsTrim searchTerm ≠ "") ∧
    (∀ v, ("search", v) ∈
        fetchParams currentCursor searchTerm locationFilter →
      v = jsTrim searchTerm) ∧
    ((∃ v, ("location", v) ∈
        fetchParams currentCursor searchTerm locationFilter) ↔
      jsTrim locationFilter ≠ "") ∧
    (∀ v, ("location", v) ∈
        fetchParams currentCursor searchTerm locationFilter →
      v = jsTrim locationFilter) := by
  rcases currentCursor with _ | c
  · by_cases hs : jsTrim searchTerm = "" <;>
      by_cases hl : jsTrim locationFilter = "" <;>
        simp [fetchParams, hs, hl]
  · by_cases hc : c = "" <;>
      by_cases hs : jsTrim searchTerm = "" <;>
        by_cases hl : jsTrim locationFilter = "" <;>
          simp [fetchParams, hc, hs, hl]

/-- Witness for C10 (amended), exercising the `limit`, `cursor` and
`location` conjuncts on concrete arguments. -/
theorem fetchParams_contents_witness :
    ("limit", "20") ∈ fetchParams (some "abc") "x" " y " ∧
    (some "abc" : Option String) = some "abc" ∧
    ("y" : String) = jsTrim " y " :=
  ⟨(fetchParams_contents (some "abc") "x" " y ").1,
   (fetchParams_contents (some "abc") "x" " y ").2.2.1 "abc" (by decide),
   (fetchParams_contents (some "abc") "x" " y ").2.2.2.2.2.2 "y"
     (by decide)⟩
